import Mathlib

/-!
# FadingView backend — shallow embedding and verification

This file embeds the market-data caching / streaming core of
`src/backend/main.py` (FastAPI service) into Lean 4 and proves or refutes
the frozen specification claims about it.

Modelling conventions:
* Python strings are Lean `String`s; characters are modelled by their code
  points.  CPython's `str.upper` / `str.isalnum` are Unicode-aware; the
  model is exact on the ASCII range and additionally records the
  Unicode-database facts for the non-ASCII code points exercised in this
  development (µ U+00B5, Μ U+039C, Ω U+03A9).
* `time.time()` timestamps are integers (`Int`), epoch seconds.
* Python dicts used as keyed caches are association lists
  (`List (String × _)`) with first-match lookup and in-place update.
* Prices / volumes are rationals (`ℚ`); the service never branches on
  floating-point rounding in any claim under scrutiny.
* Network calls (`yf.download`, metadata) are inputs to the embedded
  functions: a download result is a value of an outcome type, and
  stateful endpoints take the relevant caches as explicit state.
* Numeric pandas aggregates that no claim depends on (rolling medians of
  the outlier filters, 4h resampling, indicator math) are abstracted as
  function parameters of the build environment; theorems about the build
  quantify over them.
-/

deriving instance DecidableEq for Except

namespace FadingView

/-! ## Python string primitives (ASCII model) -/

/-- `str.strip()` on a character list: drop whitespace from both ends. -/
def listStrip (cs : List Char) : List Char :=
  ((cs.dropWhile Char.isWhitespace).reverse.dropWhile Char.isWhitespace).reverse

/-- `str.strip()` on a string. -/
def strStrip (s : String) : String :=
  ⟨listStrip s.data⟩

/-- Python `str.upper` on one character.  On ASCII it maps `a`–`z` to
`A`–`Z`; beyond ASCII CPython applies the Unicode uppercase mapping,
recorded here for the code points this development exercises: MICRO SIGN
µ (U+00B5) uppercases to GREEK CAPITAL MU Μ (U+039C), and code points
without a lowercase-to-uppercase mapping (such as Μ and Ω themselves)
are fixed. -/
def pyUpperChar (c : Char) : Char :=
  if 97 ≤ c.toNat && c.toNat ≤ 122 then Char.ofNat (c.toNat - 32)
  else if c.toNat = 181 then Char.ofNat 924
  else c

/-- Python `str.lower` on one character (exact below U+0080; no claim
exercises `lower()` beyond ASCII — it is applied only to the `tf`/`ext`
query parameters). -/
def pyLowerChar (c : Char) : Char :=
  if 65 ≤ c.toNat && c.toNat ≤ 90 then Char.ofNat (c.toNat + 32) else c

/-- Python `str.upper()`. -/
def strUpper (s : String) : String :=
  ⟨s.data.map pyUpperChar⟩

/-- Python `str.lower()`. -/
def strLower (s : String) : String :=
  ⟨s.data.map pyLowerChar⟩

/-- Python `str.isalnum()` on one character.  On ASCII it is exactly
`[0-9A-Za-z]`; beyond ASCII CPython consults the Unicode database,
recorded here for the code points this development exercises: µ (U+00B5),
Μ (U+039C) and Ω (U+03A9) are all alphanumeric.  (This is what makes the
normalizer keep non-ASCII letters, see the C7 counterexample.) -/
def pyIsAlnum (c : Char) : Bool :=
  (65 ≤ c.toNat && c.toNat ≤ 90) || (97 ≤ c.toNat && c.toNat ≤ 122) ||
    (48 ≤ c.toNat && c.toNat ≤ 57) ||
    c.toNat = 181 || c.toNat = 924 || c.toNat = 937

/-- The character filter of `_normalize_symbol`:
`ch.isalnum() or ch in "=.-^/"`. -/
def symbolKeepChar (c : Char) : Bool :=
  pyIsAlnum c || c = '=' || c = '.' || c = '-' || c = '^' || c = '/'

/-- `_normalize_symbol` (main.py:743): uppercase, strip, keep alphanumerics
and `=.-^/`. -/
def _normalize_symbol (symbol : String) : String :=
  ⟨(listStrip (symbol.data.map pyUpperChar)).filter symbolKeepChar⟩

/-- The character set `[A-Z0-9=.-^/]` named by the specification. -/
def allowedSymbolChar (c : Char) : Bool :=
  (65 ≤ c.toNat && c.toNat ≤ 90) || (48 ≤ c.toNat && c.toNat ≤ 57) ||
    c = '=' || c = '.' || c = '-' || c = '^' || c = '/'

/-! ## Data model -/

/-- A candle entry `{time, open, high, low, close, volume}` (times are epoch
seconds; `open` is spelled `opn` because `open` is a Lean keyword). -/
structure Candle where
  time : Int
  opn : ℚ
  high : ℚ
  low : ℚ
  close : ℚ
  volume : ℚ
deriving DecidableEq, Repr

/-- An indicator entry `{time, value}`. -/
structure Point where
  time : Int
  value : ℚ
deriving DecidableEq, Repr

/-- A volume bar `{time, value, color}`. -/
structure VolumeBar where
  time : Int
  value : ℚ
  color : String
deriving DecidableEq, Repr

/-- The payload built by `_build_symbol_payload` (main.py:1278).  The
indicator dict is an association list keyed by indicator name. -/
structure Payload where
  symbol : String
  timeframe : String
  ext : Bool
  candles : List Candle
  ext_candles : List Candle
  indicators : List (String × List Point)
  volume : List VolumeBar
deriving DecidableEq, Repr

/-- The delta envelope returned by `_build_delta_from_payload`. -/
structure Delta where
  symbol : String
  timeframe : String
  ext : Bool
  since : Int
  latest_time : Int
  candles : List Candle
  ext_candles : List Candle
  volume : List VolumeBar
  indicators : List (String × List Point)
deriving DecidableEq, Repr

/-! ## Delta projector (main.py:1130–1179) -/

/-- `_filter_series_since` (main.py:1130): keep entries with
`time ≥ since_ts`; a non-positive watermark returns the list unchanged. -/
def _filter_series_since {α : Type} (timeOf : α → Int)
    (items : List α) (since_ts : Int) : List α :=
  if since_ts ≤ 0 then items
  else items.filter (fun item => since_ts ≤ timeOf item)

/-- One step of the `latest_time` accumulation in
`_build_delta_from_payload`: `if rows: latest_time = max(latest_time,
rows[-1]["time"])`.  Note it reads the *last* entry of the *unfiltered*
series. -/
def latestAccum {α : Type} (timeOf : α → Int) (acc : Int) (rows : List α) : Int :=
  match rows.getLast? with
  | none => acc
  | some r => max acc (timeOf r)

/-- `latest_time` as computed by `_build_delta_from_payload`
(main.py:1164–1167): folded over the unfiltered `candles`, `ext_candles`
and `volume` series; indicators are not consulted. -/
def deltaLatestTime (p : Payload) : Int :=
  latestAccum VolumeBar.time
    (latestAccum Candle.time (latestAccum Candle.time 0 p.candles) p.ext_candles)
    p.volume

/-- `_build_delta_from_payload` (main.py:1143). -/
def _build_delta_from_payload (p : Payload) (since_ts : Int) : Delta :=
  { symbol := p.symbol
    timeframe := p.timeframe
    ext := p.ext
    since := since_ts
    latest_time := deltaLatestTime p
    candles := _filter_series_since Candle.time p.candles since_ts
    ext_candles := _filter_series_since Candle.time p.ext_candles since_ts
    volume := _filter_series_since VolumeBar.time p.volume since_ts
    indicators := p.indicators.map
      (fun kv => (kv.1, _filter_series_since Point.time kv.2 since_ts)) }

/-! ## Upstream download with retry (main.py:671–701)

A raw OHLCV frame is a list of bars indexed by epoch second.  One download
attempt either throws or completes with a frame; the retry loop of
`_yf_download_with_retry` consumes the per-attempt outcomes in order. -/

/-- A raw OHLCV row, indexed by its (epoch-second) timestamp. -/
structure Bar where
  time : Int
  opn : ℚ
  high : ℚ
  low : ℚ
  close : ℚ
  volume : ℚ
deriving DecidableEq, Repr

/-- Outcome of a single `yf.download` call: an exception, or a frame
(possibly empty). -/
inductive Attempt where
  | throws
  | frame (rows : List Bar)
deriving DecidableEq, Repr

/-- Whether an attempt threw. -/
def Attempt.isThrow : Attempt → Bool
  | .throws => true
  | .frame _ => false

/-- Whether an attempt completed with a non-empty frame. -/
def Attempt.returnsNonEmpty : Attempt → Bool
  | .throws => false
  | .frame rows => !rows.isEmpty

/-- The retry loop body of `_yf_download_with_retry`: `last_error` records
whether any attempt so far threw; a non-empty frame returns immediately;
after the loop, `if last_error: raise last_error; return pd.DataFrame()`. -/
def downloadLoop : List Attempt → Bool → Except Unit (List Bar)
  | [], lastError => if lastError then .error () else .ok []
  | a :: rest, lastError =>
    match a with
    | .frame rows => if !rows.isEmpty then .ok rows else downloadLoop rest lastError
    | .throws => downloadLoop rest true

/-- `_yf_download_with_retry` (main.py:671), as a function of the
per-attempt outcomes (the list has one element per attempt, so its length
is `max(1, retries)`). -/
def _yf_download_with_retry (attempts : List Attempt) : Except Unit (List Bar) :=
  downloadLoop attempts false

/-! ## Payload cache and single-flight read (main.py:605–668, 1081–1127) -/

/-- `_DATA_TTL_BY_TF` (main.py:84). -/
def _DATA_TTL_BY_TF : List (String × Int) :=
  [("1m", 20), ("5m", 30), ("15m", 60), ("30m", 90),
   ("1h", 120), ("4h", 300), ("1d", 900), ("1w", 3600)]

/-- `_get_data_ttl` (main.py:1081): TTL for a timeframe, default 60. -/
def _get_data_ttl (tf : String) : Int :=
  (List.lookup tf _DATA_TTL_BY_TF).getD 60

/-- `YF_FETCH_COOLDOWN_SECONDS` at its default (main.py:148). -/
def _YF_FETCH_COOLDOWN_SECONDS : Int := 60

/-- The payload cache key `f"{symbol}:{tf}:{1 if ext else 0}"`. -/
def dataCacheKey (symbol tf : String) (ext : Bool) : String :=
  symbol ++ ":" ++ tf ++ ":" ++ (if ext then "1" else "0")

/-- An entry of `_DATA_CACHE`: `{"ts": time.time(), "value": payload}`. -/
structure DataEntry where
  ts : Int
  value : Payload
deriving DecidableEq, Repr

/-- Dict update (`d[k] = v`): replace in place or append. -/
def setAssoc {α : Type} : List (String × α) → String → α → List (String × α)
  | [], k, v => [(k, v)]
  | (k', v') :: rest, k, v =>
    if k' = k then (k, v) :: rest else (k', v') :: setAssoc rest k v

/-- Dict removal (`d.pop(k, None)`). -/
def removeAssoc {α : Type} : List (String × α) → String → List (String × α)
  | [], _ => []
  | (k', v') :: rest, k =>
    if k' = k then rest else (k', v') :: removeAssoc rest k

/-- The shared mutable state touched by a payload read: the payload cache
`_DATA_CACHE` (restricted to payload entries), the failure markers
`_DATA_FETCH_FAILURE_TS`, and the in-flight set `_DATA_REFRESH_INFLIGHT`.
(The hot-key table only feeds the background refresher and is omitted.) -/
structure DataState where
  cache : List (String × DataEntry)
  failure_ts : List (String × Int)
  inflight : List String
deriving DecidableEq, Repr

/-- `_cache_is_stale` (main.py:648): `time.time() - entry["ts"] > ttl`. -/
def _cache_is_stale (now : Int) (entry : DataEntry) (ttl : Int) : Bool :=
  now - entry.ts > ttl

/-- `_is_data_fetch_backoff` (main.py:656). -/
def _is_data_fetch_backoff (failure_ts : List (String × Int)) (now : Int)
    (key : String) : Bool :=
  match List.lookup key failure_ts with
  | none => false
  | some ts => now - ts < _YF_FETCH_COOLDOWN_SECONDS

/-- Outcome of running `_build_symbol_payload` inside the single-flight
section: success, an `HTTPException` (404/...), or any other exception. -/
inductive BuildOutcome where
  | ok (p : Payload)
  | httpError (status : Nat)
  | failure
deriving DecidableEq, Repr

/-- Errors surfaced to the caller of a payload read. -/
inductive ReadError where
  | http (status : Nat)
  | exn
deriving DecidableEq, Repr

/-- `_get_cached_symbol_payload` (main.py:1089): fresh hit, cooldown stale
hit, in-flight stale hit, or single-flight build with stale-on-failure
fallback.  `build` is the outcome the pipeline would produce for this key;
the in-flight add/discard pair of the claimant nets out, so `inflight` is
returned unchanged. -/
def _get_cached_symbol_payload (st : DataState) (now : Int)
    (symbol tf : String) (ext : Bool) (build : BuildOutcome) :
    Except ReadError Payload × DataState :=
  let ttl := _get_data_ttl tf
  let key := dataCacheKey symbol tf ext
  match List.lookup key st.cache with
  | some entry =>
    if !_cache_is_stale now entry ttl then (.ok entry.value, st)
    else if _is_data_fetch_backoff st.failure_ts now key then (.ok entry.value, st)
    else if st.inflight.contains key then (.ok entry.value, st)
    else
      match build with
      | .ok p =>
        (.ok p,
          { st with cache := setAssoc st.cache key ⟨now, p⟩,
                    failure_ts := removeAssoc st.failure_ts key })
      | .httpError _ => (.ok entry.value, st)
      | .failure =>
        (.ok entry.value, { st with failure_ts := setAssoc st.failure_ts key now })
  | none =>
    if st.inflight.contains key then (.error (.http 503), st)
    else
      match build with
      | .ok p =>
        (.ok p,
          { st with cache := setAssoc st.cache key ⟨now, p⟩,
                    failure_ts := removeAssoc st.failure_ts key })
      | .httpError s => (.error (.http s), st)
      | .failure =>
        -- `_mark_data_fetch_failure` runs first, so the subsequent
        -- `_is_data_fetch_backoff` check sees `now - now = 0 < 60`.
        let failed := setAssoc st.failure_ts key now
        if _is_data_fetch_backoff failed now key then
          (.error (.http 503), { st with failure_ts := failed })
        else
          (.error .exn, { st with failure_ts := failed })

/-- `get_symbol_data` (main.py:1443): normalize, reject empty as HTTP 400,
lower-case the timeframe, read through the cache. -/
def get_symbol_data (st : DataState) (now : Int) (build : BuildOutcome)
    (symbol tf : String) (ext : Bool) : Except ReadError Payload × DataState :=
  let sym := _normalize_symbol symbol
  if sym = "" then (.error (.http 400), st)
  else _get_cached_symbol_payload st now sym (strLower tf) ext build

/-! ## Symbol classification (main.py:1421–1430) -/

/-- `str.endswith`. -/
def strEndsWith (s suffixStr : String) : Bool :=
  List.isSuffixOf suffixStr.data s.data

/-- `_is_24_7` (main.py:1421).  The metadata lookup is represented by its
result: `quote_type` is `meta.get("quote_type") or ""` for the symbol. -/
def _is_24_7 (symbol : String) (quote_type : String) : Bool :=
  let qt := strUpper quote_type
  if qt = "CRYPTOCURRENCY" || qt = "CRYPTO" then true
  else
    let upper := strUpper symbol
    strEndsWith upper "-USD" || strEndsWith upper "-USDT" ||
      strEndsWith upper "-USDC" || strEndsWith upper "-BTC" ||
      strEndsWith upper "-ETH" || strEndsWith upper "=F"

/-! ## Transform pipeline (main.py:769–941, 1218–1294)

The pandas frame is a `List Bar` (rows in index order).  Timezone
conversion and the numeric thresholds of the outlier filters are
abstracted into a `BuildEnv`; every theorem about the build quantifies
over the environment, so it holds for the concrete US/Eastern clock and
the concrete median/IQR thresholds in particular. -/

/-- Abstracted numeric sub-steps of the pipeline.
* `et t` is the `(hour, minute)` of epoch second `t` on the US/Eastern
  clock (`idx.tz_convert("US/Eastern")`).
* `intradayKeep df b` is the negation of the drop mask of
  `_filter_intraday_outliers` for row `b` of `df`.
* `extKeep ext_df reference_df b` is the keep condition of
  `_filter_ext_outliers` for ext row `b`.
* `resample4h` is `_resample_ohlc df "4H"`.
* `indLine name df` is the `{time, value}` line of the named indicator
  column computed over `df`. -/
structure BuildEnv where
  et : Int → Int × Int
  intradayKeep : List Bar → Bar → Bool
  extKeep : List Bar → List Bar → Bar → Bool
  resample4h : List Bar → List Bar
  indLine : String → List Bar → List Point

/-- The RTH mask of `_split_sessions` (main.py:873–875): 09:30 ≤ t ≤ 16:00
on the US/Eastern clock, inclusive of the 16:00 close bar.  It depends on
a row only through its timestamp. -/
def maskRTH (et : Int → Int × Int) (t : Int) : Bool :=
  let h := (et t).1
  let m := (et t).2
  ((9 < h) || (h = 9 && 30 ≤ m)) && ((h < 16) || (h = 16 && m = 0))

/-- `_split_sessions` (main.py:861): partition rows by the RTH mask. -/
def _split_sessions (et : Int → Int × Int) (df : List Bar) :
    List Bar × List Bar :=
  (df.filter (fun b => maskRTH et b.time),
   df.filter (fun b => !maskRTH et b.time))

/-- `df[~df.index.duplicated(keep="last")]`: keep only the last row of
each timestamp, preserving order. -/
def dedupKeepLast : List Bar → List Bar
  | [] => []
  | b :: rest =>
    if rest.any (fun x => x.time = b.time) then dedupKeepLast rest
    else b :: dedupKeepLast rest

/-- `_filter_intraday_outliers` (main.py:911): identity for empty frames,
24/7 symbols and daily/weekly timeframes, otherwise a row filter whose
numeric condition is the abstracted `keep` predicate. -/
def _filter_intraday_outliers (keep : List Bar → Bar → Bool)
    (df : List Bar) (tf : String) (is247 : Bool) : List Bar :=
  if df.isEmpty || is247 || tf = "1d" || tf = "1w" then df
  else df.filter (keep df)

/-- `_filter_ext_outliers` (main.py:881): identity when either frame is
empty, otherwise a row filter with the abstracted threshold predicate. -/
def _filter_ext_outliers (keep : List Bar → List Bar → Bar → Bool)
    (ext_df reference_df : List Bar) : List Bar :=
  if ext_df.isEmpty || reference_df.isEmpty then ext_df
  else ext_df.filter (keep ext_df reference_df)

/-- `_df_to_candles` (main.py:787), on NaN-free frames. -/
def _df_to_candles (df : List Bar) : List Candle :=
  df.map (fun b =>
    { time := b.time, opn := b.opn, high := b.high, low := b.low,
      close := b.close, volume := b.volume })

/-- `_df_to_volume` (main.py:808): green when `close >= open`. -/
def _df_to_volume (df : List Bar) : List VolumeBar :=
  df.map (fun b =>
    { time := b.time, value := b.volume,
      color := if b.opn ≤ b.close then "#00d084" else "#ff5a5f" })

/-- The session-split branch of `_build_symbol_payload`
(main.py:1262–1273): split, drop ext rows whose timestamp is also RTH,
de-duplicate both sides keeping the last occurrence, apply the ext
outlier filter against the RTH frame (or the base frame when RTH is
empty), convert both to candles. -/
def splitCandles (env : BuildEnv) (base_df : List Bar) :
    List Candle × List Candle :=
  let rth0 := (_split_sessions env.et base_df).1
  let ext0 := (_split_sessions env.et base_df).2
  let ext1 :=
    if !rth0.isEmpty && !ext0.isEmpty then
      ext0.filter (fun b => !(rth0.any (fun r => r.time = b.time)))
    else ext0
  let rth1 := if !rth0.isEmpty then dedupKeepLast rth0 else rth0
  let ext2 := if !ext1.isEmpty then dedupKeepLast ext1 else ext1
  let ext3 := _filter_ext_outliers env.extKeep ext2
    (if !rth1.isEmpty then rth1 else base_df)
  (_df_to_candles rth1, _df_to_candles ext3)

/-- The indicator dict of the payload (main.py:1284–1292), with the
numeric columns abstracted into `env.indLine`. -/
def buildIndicators (env : BuildEnv) (base_df : List Bar) :
    List (String × List Point) :=
  [("sma20", env.indLine "SMA20" base_df),
   ("sma50", env.indLine "SMA50" base_df),
   ("sma200", env.indLine "SMA200" base_df),
   ("ema12", env.indLine "EMA12" base_df),
   ("ema26", env.indLine "EMA26" base_df),
   ("rsi14", env.indLine "RSI14" base_df),
   ("vwap", env.indLine "VWAP" base_df)]

/-- `_build_symbol_payload` (main.py:1218), taking the downloaded
single-symbol frame `df` (the result of `_download_with_fallback` plus
the min-bars fallback and `_extract_symbol_df`) as input.  An empty frame
raises HTTP 404. -/
def _build_symbol_payload (env : BuildEnv) (quote_type symbol tf : String)
    (ext : Bool) (df : List Bar) : Except Nat Payload :=
  let include_prepost := ext && !(tf = "1d" || tf = "1w")
  let is247 := _is_24_7 symbol quote_type
  if df.isEmpty then .error 404
  else
    let base0 := _filter_intraday_outliers env.intradayKeep df tf is247
    let base_df := if tf = "4h" then env.resample4h base0 else base0
    let doSplit := include_prepost && !is247 && !(tf = "4h")
    let pair :=
      if doSplit then splitCandles env base_df
      else (_df_to_candles base_df, [])
    .ok
      { symbol := symbol
        timeframe := tf
        ext := include_prepost
        candles := pair.1
        ext_candles := pair.2
        indicators := buildIndicators env base_df
        volume := _df_to_volume base_df }

/-! ## Rate limiter (main.py:173–256, 615–641) -/

/-- `_CHART_RATE_LIMIT_PATHS` (main.py:48). -/
def _CHART_RATE_LIMIT_PATHS : List String :=
  ["/api/data", "/api/data_delta", "/api/stream/data",
   "/api/chart/data", "/api/chart/data_delta", "/api/chart/stream/data"]

/-- `path.rstrip("/")`. -/
def rstripSlash (s : String) : String :=
  ⟨(s.data.reverse.dropWhile (fun c => c = '/')).reverse⟩

/-- `str.startswith(p)`, then the remainder `s[len(p):]`. -/
def stripPrefixStr (s p : String) : Option String :=
  if List.isPrefixOf p.data s.data then some ⟨s.data.drop p.data.length⟩
  else none

/-- `_is_chart_api_path` (main.py:173). -/
def _is_chart_api_path (path : String) : Bool :=
  let n := rstripSlash path
  _CHART_RATE_LIMIT_PATHS.any
    (fun p => n = p || (stripPrefixStr n (p ++ "/")).isSome)

/-- The `tf` and `ext` query parameters of a request. -/
structure QueryParams where
  tf : Option String
  ext : Option String
deriving DecidableEq, Repr

/-- `query.get(name, dflt) or dflt`: a missing *or empty* parameter falls
back to the default. -/
def qget (v : Option String) (dflt : String) : String :=
  match v with
  | none => dflt
  | some s => if s = "" then dflt else s

/-- `value in {"1", "true", "yes", "on"}`. -/
def isTruthy (s : String) : Bool :=
  s = "1" || s = "true" || s = "yes" || s = "on"

/-- `_is_fresh_cached_data_request` (main.py:615): a GET on one of the
chart data routes whose parsed `(symbol, tf, ext)` currently has a fresh
cache entry. -/
def _is_fresh_cached_data_request (cache : List (String × DataEntry))
    (now : Int) (path : String) (query : QueryParams) (methodGET : Bool) :
    Bool :=
  if !methodGET then false
  else
    let np := rstripSlash path
    let raw? :=
      match stripPrefixStr np "/api/data/" with
      | some r => some r
      | none =>
        match stripPrefixStr np "/api/data_delta/" with
        | some r => some r
        | none =>
          match stripPrefixStr np "/api/chart/data/" with
          | some r => some r
          | none => stripPrefixStr np "/api/chart/data_delta/"
    match raw? with
    | none => false
    | some raw0 =>
      let raw := strStrip raw0
      if raw = "" then false
      else
        let symbol := _normalize_symbol raw
        if symbol = "" then false
        else
          let tf := strLower (qget query.tf "5m")
          let ext := isTruthy (strLower (strStrip (qget query.ext "0")))
          let ttl := _get_data_ttl tf
          match List.lookup (dataCacheKey symbol tf ext) cache with
          | none => false
          | some entry => !_cache_is_stale now entry ttl

/-- The rate-limit configuration (env-derived globals, main.py:40–47).
Defaults: general 120 rpm, chart 600 rpm, fresh multiplier 12. -/
structure RateConfig where
  rate_limit_enabled : Bool
  rate_limit_rpm : Int
  chart_rate_limit_enabled : Bool
  chart_rate_limit_rpm : Int
  chart_fresh_multiplier : Int
deriving DecidableEq, Repr

/-- The default configuration. -/
def cfgDefault : RateConfig :=
  { rate_limit_enabled := true
    rate_limit_rpm := 120
    chart_rate_limit_enabled := true
    chart_rate_limit_rpm := 600
    chart_fresh_multiplier := 12 }

/-- `_rate_limit_for_path` (main.py:189): `(enabled, effective_limit)`;
the fresh-cache boost multiplies the cap. -/
def _rate_limit_for_path (cfg : RateConfig)
    (cache : List (String × DataEntry)) (now : Int) (path : String)
    (methodGET : Bool) (query : QueryParams) : Bool × Int :=
  let chart := _is_chart_api_path path
  let enabled := if chart then cfg.chart_rate_limit_enabled
                 else cfg.rate_limit_enabled
  let rpm := if chart then cfg.chart_rate_limit_rpm else cfg.rate_limit_rpm
  let mult := if chart then cfg.chart_fresh_multiplier else 1
  if !enabled || rpm ≤ 0 then (false, -1)
  else if _is_fresh_cached_data_request cache now path query methodGET then
    (true, rpm * mult)
  else (true, rpm)

/-- The counter-key selection of `_check_rate_limit` (main.py:221–222):
`f"{ip}:fresh" if is_chart or effective_limit != _RATE_LIMIT_RPM else ip`. -/
def rateKeyFor (cfg : RateConfig) (cache : List (String × DataEntry))
    (now : Int) (path : String) (methodGET : Bool) (query : QueryParams)
    (ip : String) : String :=
  let eff := (_rate_limit_for_path cfg cache now path methodGET query).2
  if _is_chart_api_path path || eff ≠ cfg.rate_limit_rpm then ip ++ ":fresh"
  else ip

/-- A bucket of `_RATE_LIMIT_STATE`: `{"window": w, "count": n}`. -/
structure RLEntry where
  window : Int
  count : Int
deriving DecidableEq, Repr

/-- `_check_rate_limit` (main.py:209, live part): returns
`(allowed, remaining, effective_limit)` and the updated bucket table.
`now` is in epoch seconds; the window is `now // 60`. -/
def _check_rate_limit (cfg : RateConfig)
    (cache : List (String × DataEntry)) (rl : List (String × RLEntry))
    (now : Int) (ip path : String) (methodGET : Bool) (query : QueryParams) :
    (Bool × Int × Int) × List (String × RLEntry) :=
  if path = "" then ((true, -1, -1), rl)
  else
    let eff := (_rate_limit_for_path cfg cache now path methodGET query).2
    if eff ≤ 0 then ((true, -1, eff), rl)
    else
      let window := Int.fdiv now 60
      let key := rateKeyFor cfg cache now path methodGET query ip
      let entry :=
        match List.lookup key rl with
        | some e => if e.window = window then e else ⟨window, 0⟩
        | none => ⟨window, 0⟩
      let rl1 := setAssoc rl key entry
      if eff ≤ entry.count then ((false, 0, eff), rl1)
      else
        let count := entry.count + 1
        let rl2 := setAssoc rl1 key ⟨window, count⟩
        let remaining := max 0 (eff - count)
        let rl3 :=
          if 8000 < rl2.length then
            rl2.filter (fun kv =>
              kv.2.window = window - 2 || kv.2.window = window - 1)
          else rl2
        ((true, remaining, eff), rl3)

/-! ## Quotes endpoint (main.py:944–1078, 1627–1653) -/

/-- A quote record as assembled by `_get_quote_snapshot`. -/
structure Quote where
  price : ℚ
  change : ℚ
  change_pct : ℚ
  spark : List ℚ
  exchange : String
  name : String
  currency : String
  session : String
  last_ts : Option Int
  rth_price : Option ℚ
  ext_price : Option ℚ
  ext_change : Option ℚ
  ext_change_pct : Option ℚ
  rth_change : Option ℚ
  rth_change_pct : Option ℚ
deriving DecidableEq, Repr

/-- Quote entries of `_DATA_CACHE` (stored under `"quotes:"` keys). -/
structure QuoteEntry where
  ts : Int
  value : List (String × Quote)
deriving DecidableEq, Repr

/-- The response body of `GET /api/quotes`. -/
structure QuotesResponse where
  quotes : List (String × Quote)
  stale : Bool
deriving DecidableEq, Repr

/-- `_QUOTE_TTL` (main.py:95). -/
def _QUOTE_TTL : Int := 15

/-- Helper for `str.split(",")`: `acc` is the current (reversed) field. -/
def splitCommaAux : List Char → List Char → List String
  | [], acc => [⟨acc.reverse⟩]
  | c :: rest, acc =>
    if c = ',' then ⟨acc.reverse⟩ :: splitCommaAux rest []
    else splitCommaAux rest (c :: acc)

/-- Python `symbols.split(",")` (note: `"".split(",") == [""]`). -/
def pySplitComma (s : String) : List String :=
  splitCommaAux s.data []

/-- Code-point lexicographic `≤` on character lists. -/
def listLe : List Char → List Char → Bool
  | [], _ => true
  | _ :: _, [] => false
  | a :: as, b :: bs =>
    if a.toNat < b.toNat then true
    else if b.toNat < a.toNat then false
    else listLe as bs

/-- Python `sorted` comparison on strings (code-point lexicographic). -/
def strLe (a b : String) : Bool :=
  listLe a.data b.data

/-- Insert `x` after every already-placed element `≤ x` (the placement a
stable sort gives an element arriving after its equals). -/
def insertSorted {α : Type} (le : α → α → Bool) (x : α) : List α → List α
  | [] => [x]
  | y :: ys => if le y x then y :: insertSorted le x ys else x :: y :: ys

/-- Python `sorted(list)`: a stable comparison sort.  (Stability is
unobservable on a list of plain strings; any sorted permutation agrees
with CPython's output.) -/
def pySorted {α : Type} (le : α → α → Bool) (l : List α) : List α :=
  l.foldl (fun acc x => insertSorted le x acc) []

/-- The un-sorted symbol list of `get_quotes` (main.py:1632–1637): split
the CSV, drop blank items, normalize, drop empty normalizations, cap at
the first 50.  No de-duplication happens anywhere in this chain. -/
def quotesCappedList (symbols : String) : List String :=
  let parts := (pySplitComma symbols).filter
    (fun s => !(listStrip s.data).isEmpty)
  let sym_list := (parts.map _normalize_symbol).filter (fun s => s ≠ "")
  if 50 < sym_list.length then sym_list.take 50 else sym_list

/-- The symbol-list normalization of `get_quotes` (main.py:1632–1638):
the capped clean list, sorted. -/
def quotes_sym_list (symbols : String) : List String :=
  pySorted strLe (quotesCappedList symbols)

/-- The quotes cache key `f"quotes:{mode_key}:" + ",".join(sym_list)`. -/
def quotesCacheKey (sym_list : List String) (ext : Bool) : String :=
  "quotes:" ++ (if ext then "ext" else "rth") ++ ":" ++
    String.intercalate "," sym_list

/-- `get_quotes` (main.py:1627).  `snapshot` is the result the live
`_get_quote_snapshot` call would produce for this symbol list (the hot
marking only feeds the background refresher and is omitted). -/
def get_quotes (qcache : List (String × QuoteEntry)) (now : Int)
    (snapshot : List (String × Quote)) (symbols : String) (ext : Bool) :
    QuotesResponse × List (String × QuoteEntry) :=
  let sym_list := quotes_sym_list symbols
  if sym_list.isEmpty then (⟨[], false⟩, qcache)
  else
    let key := quotesCacheKey sym_list ext
    match List.lookup key qcache with
    | some entry =>
      if !(now - entry.ts > _QUOTE_TTL) then (⟨entry.value, false⟩, qcache)
      else (⟨entry.value, true⟩, qcache)
    | none =>
      -- entry is None, so `if not quotes and entry:` cannot fire:
      -- the snapshot (empty or not) is cached and served as non-stale.
      (⟨snapshot, false⟩, setAssoc qcache key ⟨now, snapshot⟩)

/-! ## Stream engine (main.py:1182–1196, 1491–1549) -/

/-- `values[-1:]`: the last element as a slice. -/
def lastSlice {α : Type} (l : List α) : List α :=
  match l.getLast? with
  | none => []
  | some x => [x]

/-- The compact content signature of `_delta_signature` (main.py:1182);
JSON-string equality of the `compact` dict is modelled by structural
equality of its fields. -/
structure SigCompact where
  latest_time : Int
  candles_last : List Candle
  ext_last : List Candle
  vol_last : List VolumeBar
  ind_last : List (String × List Point)
deriving DecidableEq, Repr

/-- `_delta_signature` (main.py:1182). -/
def _delta_signature (d : Delta) : SigCompact :=
  { latest_time := d.latest_time
    candles_last := lastSlice d.candles
    ext_last := lastSlice d.ext_candles
    vol_last := lastSlice d.volume
    ind_last := d.indicators.map (fun kv => (kv.1, lastSlice kv.2)) }

/-- The per-subscription loop variables of `event_stream`
(main.py:1506–1510): the watermark, the last emitted signature
(`""`, i.e. `none`, before the first data frame) and the last emitted
error message. -/
structure StreamState where
  since_ts : Int
  last_sig : Option SigCompact
  last_error : String
deriving DecidableEq, Repr

/-- What one tick of the push loop observes: the payload read either
raised (any exception, message attached) or returned a payload. -/
inductive TickResult where
  | fail (msg : String)
  | ok (p : Payload)
deriving DecidableEq, Repr

/-- A frame emitted on the event stream (keep-alive comments omitted —
they carry no data and do not touch the watermark). -/
inductive StreamFrame where
  | data (d : Delta)
  | errorFrame (symbol timeframe : String) (ext : Bool) (msg : String)
deriving DecidableEq, Repr

/-- `has_updates` (main.py:1529–1534). -/
def deltaHasUpdates (d : Delta) : Bool :=
  !d.candles.isEmpty || !d.ext_candles.isEmpty || !d.volume.isEmpty ||
    d.indicators.any (fun kv => !kv.2.isEmpty)

/-- One iteration of the push loop of `stream_symbol_data`
(main.py:1511–1547): error frames are de-duplicated per contiguous
failure run; a data frame is emitted when the delta is non-empty and its
signature changed, and then the watermark advances to
`max(since_ts, latest_time)` whenever `latest_time > 0`. -/
def stream_step (symbol tf : String) (ext : Bool) (st : StreamState)
    (res : TickResult) : StreamState × Option StreamFrame :=
  match res with
  | .fail msg =>
    if msg ≠ st.last_error then
      ({ st with last_error := msg }, some (.errorFrame symbol tf ext msg))
    else (st, none)
  | .ok p =>
    let delta := _build_delta_from_payload p st.since_ts
    let st1 := { st with last_error := "" }
    if deltaHasUpdates delta then
      let sig := _delta_signature delta
      if some sig ≠ st1.last_sig then
        let latest := delta.latest_time
        let since2 := if 0 < latest then max st1.since_ts latest
                      else st1.since_ts
        ({ st1 with last_sig := some sig, since_ts := since2 },
          some (.data delta))
      else (st1, none)
    else (st1, none)

/-! ## Shared concrete instances for witnesses and counterexamples -/

/-- A one-bar candle at time 10. -/
def candleEx : Candle :=
  { time := 10, opn := 1, high := 1, low := 1, close := 1, volume := 1 }

/-- A payload holding the single candle `candleEx`. -/
def payloadEx : Payload :=
  { symbol := "AAPL", timeframe := "5m", ext := false,
    candles := [candleEx], ext_candles := [], indicators := [], volume := [] }

/-- A build environment with a trivial clock (always 10:00 ET) and
pass-through filters. -/
def envTriv : BuildEnv :=
  { et := fun _ => (10, 0)
    intradayKeep := fun _ _ => true
    extKeep := fun _ _ _ => true
    resample4h := fun df => df
    indLine := fun _ _ => [] }

/-- A single raw bar at time 1. -/
def barEx : Bar :=
  { time := 1, opn := 1, high := 1, low := 1, close := 1, volume := 1 }

/-- A second raw bar at time 2. -/
def barEx2 : Bar :=
  { time := 2, opn := 1, high := 1, low := 1, close := 1, volume := 1 }

/-- A cache state holding a (stale) payload for `AAPL:5m:0`. -/
def stateEx : DataState :=
  { cache := [("AAPL:5m:0", { ts := 0, value := payloadEx })],
    failure_ts := [], inflight := [] }

/-! ## Helper lemmas -/

theorem mem_listStrip {c : Char} {l : List Char} (h : c ∈ listStrip l) :
    c ∈ l := by
  unfold listStrip at h
  rw [List.mem_reverse] at h
  have h2 := (List.dropWhile_sublist _).subset h
  rw [List.mem_reverse] at h2
  exact (List.dropWhile_sublist _).subset h2

theorem toNat_ofNat_of_le (n : Nat) (h1 : 65 ≤ n) (h2 : n ≤ 90) :
    (Char.ofNat n).toNat = n := by
  interval_cases n <;> decide

theorem pyUpperChar_allowed (c : Char) (hascii : c.toNat < 128)
    (h : symbolKeepChar (pyUpperChar c) = true) :
    allowedSymbolChar (pyUpperChar c) = true := by
  unfold pyUpperChar at *
  by_cases hlow : (97 ≤ c.toNat && c.toNat ≤ 122) = true
  · rw [if_pos hlow] at *
    simp only [Bool.and_eq_true, decide_eq_true_eq] at hlow
    have hv : (Char.ofNat (c.toNat - 32)).toNat = c.toNat - 32 :=
      toNat_ofNat_of_le _ (by omega) (by omega)
    simp only [allowedSymbolChar, hv, Bool.or_eq_true, Bool.and_eq_true,
      decide_eq_true_eq]
    exact Or.inl (Or.inl (Or.inl (Or.inl (Or.inl
      (Or.inl ⟨by omega, by omega⟩)))))
  · rw [if_neg hlow] at *
    rw [if_neg (show ¬c.toNat = 181 by omega)] at *
    simp only [Bool.and_eq_true, decide_eq_true_eq, not_and, not_le] at hlow
    simp only [symbolKeepChar, pyIsAlnum, Bool.or_eq_true, Bool.and_eq_true,
      decide_eq_true_eq] at h
    simp only [allowedSymbolChar, Bool.or_eq_true, Bool.and_eq_true,
      decide_eq_true_eq]
    rcases h with (((((((((ha | hb) | hd) | hm1) | hm2) | hm3) | h1) | h2)
      | h3) | h4) | h5
    · exact Or.inl (Or.inl (Or.inl (Or.inl (Or.inl (Or.inl ha)))))
    · omega
    · exact Or.inl (Or.inl (Or.inl (Or.inl (Or.inl (Or.inr hd)))))
    · omega
    · omega
    · omega
    · exact Or.inl (Or.inl (Or.inl (Or.inl (Or.inr h1))))
    · exact Or.inl (Or.inl (Or.inl (Or.inr h2)))
    · exact Or.inl (Or.inl (Or.inr h3))
    · exact Or.inl (Or.inr h4)
    · exact Or.inr h5

/-! ## C7 -/

/-- **C7** (corrected).  The normalizer keeps every character that is
Python-alphanumeric or in `=.-^/`; since CPython's `isalnum` is
Unicode-aware, the output is guaranteed to lie in `[A-Z0-9=.-^/]` only
for ASCII input — a non-ASCII alphanumeric such as `Ω` survives
normalization.  A request whose symbol normalizes to the empty string is
still rejected by `get_symbol_data` with HTTP 400 (`InvalidSymbol`). -/
theorem C7_normalize_ascii_charset_and_reject (symbol : String) :
    ((∀ c ∈ symbol.data, c.toNat < 128) →
      ∀ c ∈ (_normalize_symbol symbol).data, allowedSymbolChar c = true) ∧
    (_normalize_symbol symbol = "" →
      ∀ (st : DataState) (now : Int) (build : BuildOutcome)
        (tf : String) (ext : Bool),
        (get_symbol_data st now build symbol tf ext).1 =
          .error (.http 400)) := by
  constructor
  · intro hascii c hc
    have hdata : (_normalize_symbol symbol).data =
        (listStrip (symbol.data.map pyUpperChar)).filter symbolKeepChar := rfl
    rw [hdata, List.mem_filter] at hc
    obtain ⟨hmem, hkeep⟩ := hc
    have hmem2 := mem_listStrip hmem
    rw [List.mem_map] at hmem2
    obtain ⟨a, ha, rfl⟩ := hmem2
    exact pyUpperChar_allowed a (hascii a ha) hkeep
  · intro h st now build tf ext
    simp [get_symbol_data, h]

/-- Witness for C7 (amended form): an ASCII symbol normalizes inside the
charset, and `"!!"` normalizes to the empty string and is rejected with
HTTP 400. -/
theorem C7_witness :
    allowedSymbolChar 'L' = true ∧
    _normalize_symbol "!!" = "" ∧
    (get_symbol_data ⟨[], [], []⟩ 0 BuildOutcome.failure "!!" "5m" false).1 =
      .error (.http 400) :=
  ⟨(C7_normalize_ascii_charset_and_reject " aapl ").1 (by decide) 'L'
     (by decide),
   by decide,
   (C7_normalize_ascii_charset_and_reject "!!").2 (by decide) ⟨[], [], []⟩ 0
     BuildOutcome.failure "5m" false⟩

/-- Counterexample to C7 as stated: GREEK CAPITAL OMEGA (U+03A9) is
Unicode-alphanumeric, so it survives normalization unchanged although it
lies outside `[A-Z0-9=.-^/]` (and the request is then served, not
rejected); likewise MICRO SIGN µ (U+00B5) uppercases to GREEK CAPITAL MU
Μ (U+039C), which is kept and is also outside the set. -/
theorem C7_counterexample :
    _normalize_symbol "Ω" = "Ω" ∧
    ('Ω' : Char).toNat = 937 ∧
    allowedSymbolChar 'Ω' = false ∧
    _normalize_symbol "µ" = "Μ" ∧
    ('µ' : Char).toNat = 181 ∧
    ('Μ' : Char).toNat = 924 ∧
    allowedSymbolChar 'Μ' = false := by
  decide

/-! ## C1 -/

theorem filter_series_nil {α : Type} (timeOf : α → Int) (items : List α)
    (since_ts : Int) (hpos : 0 < since_ts)
    (h : ∀ a ∈ items, timeOf a < since_ts) :
    _filter_series_since timeOf items since_ts = [] := by
  unfold _filter_series_since
  rw [if_neg (by omega)]
  rw [List.filter_eq_nil_iff]
  intro a ha
  simp only [decide_eq_true_eq, not_le]
  exact h a ha

theorem le_latestAccum {α : Type} (timeOf : α → Int) (acc : Int)
    (rows : List α) : acc ≤ latestAccum timeOf acc rows := by
  unfold latestAccum
  cases rows.getLast? <;> simp

theorem timeOf_le_latestAccum {α : Type} (timeOf : α → Int) (acc : Int)
    {rows : List α} {r : α} (h : rows.getLast? = some r) :
    timeOf r ≤ latestAccum timeOf acc rows := by
  unfold latestAccum
  rw [h]
  exact le_max_right _ _

/-- **C1** (corrected).  The code computes `latest_time` from the *last
entries of the unfiltered* `candles`, `ext_candles` and `volume` series
(never from the filtered ones, and never from indicators), so it is
independent of `since_ts`.  When `since_ts` exceeds every entry time all
series of the delta are empty, yet `latest_time` keeps the unfiltered
value — in particular it is positive whenever the payload's last candle
has a positive time, not `0` as the specification states. -/
theorem C1_latest_time_unfiltered (p : Payload) (s1 s2 : Int)
    (hpos : 0 < s1)
    (hc : ∀ c ∈ p.candles, c.time < s1)
    (he : ∀ c ∈ p.ext_candles, c.time < s1)
    (hv : ∀ v ∈ p.volume, v.time < s1)
    (hi : ∀ kv ∈ p.indicators, ∀ q ∈ kv.2, q.time < s1) :
    (_build_delta_from_payload p s1).candles = [] ∧
    (_build_delta_from_payload p s1).ext_candles = [] ∧
    (_build_delta_from_payload p s1).volume = [] ∧
    (∀ kv ∈ (_build_delta_from_payload p s1).indicators, kv.2 = []) ∧
    (_build_delta_from_payload p s1).latest_time =
      (_build_delta_from_payload p s2).latest_time ∧
    (∀ c, p.candles.getLast? = some c → 0 < c.time →
      0 < (_build_delta_from_payload p s1).latest_time) := by
  refine ⟨filter_series_nil _ _ _ hpos hc, filter_series_nil _ _ _ hpos he,
    filter_series_nil _ _ _ hpos hv, ?_, rfl, ?_⟩
  · intro kv hkv
    simp only [_build_delta_from_payload, List.mem_map] at hkv
    obtain ⟨kv0, hkv0, rfl⟩ := hkv
    exact filter_series_nil _ _ _ hpos (hi kv0 hkv0)
  · intro c hlast hcpos
    show 0 < deltaLatestTime p
    have h1 : c.time ≤ latestAccum Candle.time 0 p.candles :=
      timeOf_le_latestAccum _ _ hlast
    have h2 := le_latestAccum Candle.time
      (latestAccum Candle.time 0 p.candles) p.ext_candles
    have h3 := le_latestAccum VolumeBar.time
      (latestAccum Candle.time (latestAccum Candle.time 0 p.candles)
        p.ext_candles) p.volume
    unfold deltaLatestTime
    omega

/-- Witness for C1 (amended form): at `since = 20 > 10` all series empty,
`latest_time` agrees with the `since = 0` projection and is positive. -/
theorem C1_witness :
    (_build_delta_from_payload payloadEx 20).candles = [] ∧
    (_build_delta_from_payload payloadEx 20).latest_time =
      (_build_delta_from_payload payloadEx 0).latest_time ∧
    0 < (_build_delta_from_payload payloadEx 20).latest_time := by
  have h := C1_latest_time_unfiltered payloadEx 20 0 (by decide)
    (by decide) (by decide) (by decide) (by decide)
  exact ⟨h.1, h.2.2.2.2.1, h.2.2.2.2.2 candleEx (by decide) (by decide)⟩

/-- Counterexample to C1 as stated: the payload holds one candle at time
10; at watermark `since = 20` every series of the delta is empty, yet
`latest_time = 10`, not `0`. -/
theorem C1_counterexample :
    (_build_delta_from_payload payloadEx 20).candles = [] ∧
    (_build_delta_from_payload payloadEx 20).ext_candles = [] ∧
    (_build_delta_from_payload payloadEx 20).volume = [] ∧
    (_build_delta_from_payload payloadEx 20).indicators = [] ∧
    (_build_delta_from_payload payloadEx 20).latest_time = 10 := by
  decide

/-! ## C2 -/

/-- **C2** (confirmed).  Whenever any prior cache entry exists for the
key — fresh or stale, in cooldown, with a build in flight, or with the
build failing in any way — `_get_cached_symbol_payload` returns a payload
and never raises. -/
theorem C2_stale_never_error (st : DataState) (now : Int)
    (symbol tf : String) (ext : Bool) (build : BuildOutcome) (e : DataEntry)
    (h : List.lookup (dataCacheKey symbol tf ext) st.cache = some e) :
    ((_get_cached_symbol_payload st now symbol tf ext build).1).isOk
      = true := by
  simp only [_get_cached_symbol_payload, h]
  split
  · rfl
  · split
    · rfl
    · split
      · rfl
      · cases build <;> rfl

/-- Witness for C2: a stale entry, a failing build, and yet the read
returns a payload. -/
theorem C2_witness :
    List.lookup (dataCacheKey "AAPL" "5m" false) stateEx.cache =
      some ⟨0, payloadEx⟩ ∧
    ((_get_cached_symbol_payload stateEx 1000 "AAPL" "5m" false
        BuildOutcome.failure).1).isOk = true :=
  ⟨by decide,
   C2_stale_never_error stateEx 1000 "AAPL" "5m" false BuildOutcome.failure
     ⟨0, payloadEx⟩ (by decide)⟩

/-! ## C3 -/

/-- **C3** (corrected).  The `ext` field of a built payload records
`include_prepost = ext and tf not in ("1d", "1w")` — it does *not*
consult the 24/7 classification.  The classification only disables the
session split, so a 24/7 symbol gets an empty `ext_candles` series while
still carrying `ext: true` when extended hours were requested on an
intraday timeframe. -/
theorem C3_ext_field (env : BuildEnv) (qt symbol tf : String) (ext : Bool)
    (df : List Bar) (p : Payload)
    (h : _build_symbol_payload env qt symbol tf ext df = .ok p) :
    p.ext = (ext && !(tf = "1d" || tf = "1w")) ∧
    (_is_24_7 symbol qt = true → p.ext_candles = []) := by
  unfold _build_symbol_payload at h
  split at h
  · exact absurd h (by simp)
  · rw [Except.ok.injEq] at h
    subst h
    refine ⟨rfl, ?_⟩
    intro h247
    simp [h247]

/-- Witness for C3 (amended form): building BTC-USD (24/7 via its `-USD`
suffix) at `tf=5m`, `ext=true` yields `ext: true` and no ext candles. -/
def payloadBuilt24Ex : Payload :=
  match _build_symbol_payload envTriv "" "BTC-USD" "5m" true [barEx] with
  | .ok p => p
  | .error _ => payloadEx

theorem C3_witness :
    payloadBuilt24Ex.ext = (true && !("5m" = "1d" || "5m" = "1w")) ∧
    payloadBuilt24Ex.ext_candles = [] := by
  have h := C3_ext_field envTriv "" "BTC-USD" "5m" true [barEx]
    payloadBuilt24Ex (by decide)
  exact ⟨h.1, h.2 (by decide)⟩

/-- Counterexample to C3 as stated: BTC-USD is classified 24/7, yet the
payload built for `tf=1h`, `ext=true` carries `ext: true`, not the
`ext: false` the specification promises. -/
theorem C3_counterexample :
    _is_24_7 "BTC-USD" "CRYPTOCURRENCY" = true ∧
    Except.map Payload.ext
      (_build_symbol_payload envTriv "CRYPTOCURRENCY" "BTC-USD" "1h" true
        [barEx]) = .ok true := by
  decide

/-! ## C4 -/

theorem downloadLoop_error_iff (attempts : List Attempt) (lastError : Bool) :
    downloadLoop attempts lastError = .error () ↔
      ((lastError = true ∨ attempts.any Attempt.isThrow = true) ∧
        attempts.all (fun a => !a.returnsNonEmpty) = true) := by
  induction attempts generalizing lastError with
  | nil =>
    cases lastError <;> simp [downloadLoop]
  | cons a rest ih =>
    cases a with
    | throws =>
      simp [downloadLoop, Attempt.isThrow, Attempt.returnsNonEmpty, ih]
    | frame rows =>
      by_cases hr : rows.isEmpty = true
      · simp [downloadLoop, hr, Attempt.isThrow, Attempt.returnsNonEmpty, ih]
      · simp [downloadLoop, hr, Attempt.isThrow, Attempt.returnsNonEmpty]

theorem downloadLoop_all_empty (attempts : List Attempt)
    (h : attempts.all (fun a => a = Attempt.frame []) = true) :
    downloadLoop attempts false = .ok [] := by
  induction attempts with
  | nil => rfl
  | cons a rest ih =>
    simp only [List.all_cons, Bool.and_eq_true, decide_eq_true_eq] at h
    obtain ⟨ha, hrest⟩ := h
    subst ha
    simpa [downloadLoop] using ih hrest

/-- **C4** (corrected).  An empty frame on every attempt with no attempt
throwing is returned as a valid empty frame; but the downloader raises
exactly when *some* attempt threw and *no* attempt returned a non-empty
frame — so it can raise even though later attempts completed without
throwing (returning empty frames), contrary to the claim that it raises
only when all retries threw. -/
theorem C4_retry_semantics (attempts : List Attempt) :
    (attempts.all (fun a => a = Attempt.frame []) = true →
      _yf_download_with_retry attempts = .ok []) ∧
    (_yf_download_with_retry attempts = .error () ↔
      (attempts.any Attempt.isThrow = true ∧
        attempts.all (fun a => !a.returnsNonEmpty) = true)) := by
  constructor
  · exact downloadLoop_all_empty attempts
  · simpa [_yf_download_with_retry] using
      downloadLoop_error_iff attempts false

/-- Witness for C4 (amended form): three empty frames, no throw — the
empty frame is returned as a value. -/
theorem C4_witness :
    _yf_download_with_retry
      [Attempt.frame [], Attempt.frame [], Attempt.frame []] = .ok [] :=
  (C4_retry_semantics
    [Attempt.frame [], Attempt.frame [], Attempt.frame []]).1 (by decide)

/-- Counterexample to C4 as stated: the first attempt throws, the second
and third complete without throwing (empty frames) — yet the downloader
raises, although not all retry attempts threw. -/
theorem C4_counterexample :
    _yf_download_with_retry
      [Attempt.throws, Attempt.frame [], Attempt.frame []] = .error () ∧
    [Attempt.throws, Attempt.frame [], Attempt.frame []].all
      Attempt.isThrow = false := by
  decide

/-! ## C5 -/

/-- **C5** (corrected).  Whenever a positive limit applies, the bucket key
carries the `:fresh` suffix exactly when the path is chart-class —
independent of whether the fresh-cache boost actually applies.  All
chart-data traffic, boosted or not, shares the `ip:fresh` bucket, and
general traffic uses the bare `ip` bucket. -/
theorem C5_rate_key_by_path_class (cfg : RateConfig)
    (cache : List (String × DataEntry)) (now : Int) (path : String)
    (methodGET : Bool) (query : QueryParams) (ip : String)
    (h : 0 < (_rate_limit_for_path cfg cache now path methodGET query).2) :
    rateKeyFor cfg cache now path methodGET query ip =
      if _is_chart_api_path path then ip ++ ":fresh" else ip := by
  unfold rateKeyFor
  by_cases hc : _is_chart_api_path path = true
  · simp [hc]
  · rw [Bool.not_eq_true] at hc
    have heff : (_rate_limit_for_path cfg cache now path methodGET query).2 =
        cfg.rate_limit_rpm := by
      unfold _rate_limit_for_path at h ⊢
      simp only [hc, Bool.false_eq_true, if_false] at h ⊢
      by_cases hguard :
          (!cfg.rate_limit_enabled || decide (cfg.rate_limit_rpm ≤ 0)) = true
      · rw [if_pos hguard] at h
        simp at h
      · rw [if_neg hguard] at h ⊢
        split <;> simp
    simp [hc, heff]

/-- Witness for C5 (amended form): a general route under the default
configuration counts in the bare `ip` bucket. -/
theorem C5_witness :
    rateKeyFor cfgDefault [] 0 "/api/quotes" true ⟨none, none⟩ "9.9.9.9" =
      "9.9.9.9" :=
  (C5_rate_key_by_path_class cfgDefault [] 0 "/api/quotes" true ⟨none, none⟩
    "9.9.9.9" (by decide)).trans (by decide)

/-- Counterexample to C5 as stated: with an empty cache the fresh boost
does not apply to `GET /api/data/AAPL`, yet the counter key still carries
the `:fresh` suffix (every chart-class request does). -/
theorem C5_counterexample :
    _is_fresh_cached_data_request [] 0 "/api/data/AAPL" ⟨none, none⟩ true =
      false ∧
    rateKeyFor cfgDefault [] 0 "/api/data/AAPL" true ⟨none, none⟩ "1.2.3.4" =
      "1.2.3.4:fresh" := by
  decide

/-! ## C6 -/

theorem insertSorted_perm {α : Type} (le : α → α → Bool) (x : α)
    (l : List α) : (insertSorted le x l).Perm (x :: l) := by
  induction l with
  | nil => exact List.Perm.refl _
  | cons y ys ih =>
    unfold insertSorted
    split
    · exact (List.Perm.cons y ih).trans (List.Perm.swap x y ys)
    · exact List.Perm.refl _

theorem foldl_insertSorted_perm {α : Type} (le : α → α → Bool)
    (l : List α) : ∀ acc : List α,
    (l.foldl (fun acc x => insertSorted le x acc) acc).Perm (acc ++ l) := by
  induction l with
  | nil => intro acc; simp
  | cons x xs ih =>
    intro acc
    refine (ih (insertSorted le x acc)).trans ?_
    refine ((insertSorted_perm le x acc).append_right xs).trans ?_
    exact List.perm_middle.symm

theorem pySorted_perm {α : Type} (le : α → α → Bool) (l : List α) :
    (pySorted le l).Perm l := by
  simpa using foldl_insertSorted_perm le l []

theorem insertSorted_pairwise {α : Type} {le : α → α → Bool}
    (htrans : ∀ a b c, le a b = true → le b c = true → le a c = true)
    (htotal : ∀ a b, le a b = true ∨ le b a = true)
    (x : α) : ∀ {l : List α},
    List.Pairwise (fun a b => le a b = true) l →
    List.Pairwise (fun a b => le a b = true) (insertSorted le x l) := by
  intro l hl
  induction l with
  | nil => simp [insertSorted]
  | cons y ys ih =>
    rw [List.pairwise_cons] at hl
    obtain ⟨hy, hys⟩ := hl
    unfold insertSorted
    split
    · rename_i hyx
      rw [List.pairwise_cons]
      refine ⟨?_, ih hys⟩
      intro z hz
      rcases List.mem_cons.mp ((insertSorted_perm le x ys).mem_iff.mp hz)
        with rfl | hzys
      · exact hyx
      · exact hy z hzys
    · rename_i hyx
      have hxy : le x y = true := by
        rcases htotal x y with h | h
        · exact h
        · exact absurd h (by simpa using hyx)
      rw [List.pairwise_cons]
      refine ⟨?_, List.pairwise_cons.mpr ⟨hy, hys⟩⟩
      intro z hz
      rcases List.mem_cons.mp hz with rfl | hzys
      · exact hxy
      · exact htrans x y z hxy (hy z hzys)

theorem pySorted_pairwise {α : Type} {le : α → α → Bool}
    (htrans : ∀ a b c, le a b = true → le b c = true → le a c = true)
    (htotal : ∀ a b, le a b = true ∨ le b a = true) (l : List α) :
    List.Pairwise (fun a b => le a b = true) (pySorted le l) := by
  suffices h : ∀ acc : List α, List.Pairwise (fun a b => le a b = true) acc →
      List.Pairwise (fun a b => le a b = true)
        (l.foldl (fun acc x => insertSorted le x acc) acc) by
    exact h [] (by simp)
  induction l with
  | nil => intro acc hacc; exact hacc
  | cons x xs ih =>
    intro acc hacc
    exact ih _ (insertSorted_pairwise htrans htotal x hacc)

theorem listLe_total (a : List Char) : ∀ b : List Char,
    listLe a b = true ∨ listLe b a = true := by
  induction a with
  | nil => intro b; left; rfl
  | cons x xs ih =>
    intro b
    cases b with
    | nil => right; rfl
    | cons y ys =>
      unfold listLe
      by_cases h1 : x.toNat < y.toNat
      · left; simp [h1]
      · by_cases h2 : y.toNat < x.toNat
        · right; simp [h2]
        · rcases ih ys with h | h
          · left; simp [h1, h2, h]
          · right; simp [h1, h2, h]

theorem listLe_trans (a : List Char) : ∀ b c : List Char,
    listLe a b = true → listLe b c = true → listLe a c = true := by
  induction a with
  | nil => intro b c _ _; rfl
  | cons x xs ih =>
    intro b c h1 h2
    cases b with
    | nil => simp [listLe] at h1
    | cons y ys =>
      cases c with
      | nil => simp [listLe] at h2
      | cons z zs =>
        unfold listLe at h1 h2 ⊢
        by_cases hxy : x.toNat < y.toNat
        · by_cases hyz : y.toNat < z.toNat
          · simp [show x.toNat < z.toNat by omega]
          · by_cases hzy : z.toNat < y.toNat
            · simp [hyz, hzy] at h2
            · simp [show x.toNat < z.toNat by omega]
        · by_cases hyx : y.toNat < x.toNat
          · simp [hxy, hyx] at h1
          · by_cases hyz : y.toNat < z.toNat
            · simp [show x.toNat < z.toNat by omega]
            · by_cases hzy : z.toNat < y.toNat
              · simp [hyz, hzy] at h2
              · have h1' : listLe xs ys = true := by
                  simpa [hxy, hyx] using h1
                have h2' : listLe ys zs = true := by
                  simpa [hyz, hzy] using h2
                simp [show ¬x.toNat < z.toNat by omega,
                  show ¬z.toNat < x.toNat by omega, ih ys zs h1' h2']

theorem strLe_total (a b : String) : strLe a b = true ∨ strLe b a = true :=
  listLe_total a.data b.data

theorem strLe_trans (a b c : String) (h1 : strLe a b = true)
    (h2 : strLe b c = true) : strLe a c = true :=
  listLe_trans a.data b.data c.data h1 h2

theorem quotesCappedList_length (symbols : String) :
    (quotesCappedList symbols).length ≤ 50 := by
  simp only [quotesCappedList]
  split
  · simp
  · rename_i h
    omega

/-- **C6** (corrected).  The symbol list used for the quotes cache key is
the normalized CSV with blanks removed, capped at the *first 50 entries
before sorting*, and then sorted — but it is never de-duplicated, so a
repeated symbol appears repeatedly in the cache key. -/
theorem C6_sym_list_shape (symbols : String) :
    (quotes_sym_list symbols).Perm (quotesCappedList symbols) ∧
    List.Pairwise (fun a b => strLe a b = true) (quotes_sym_list symbols) ∧
    (quotes_sym_list symbols).length ≤ 50 := by
  refine ⟨pySorted_perm strLe _,
    pySorted_pairwise strLe_trans strLe_total _, ?_⟩
  show (pySorted strLe (quotesCappedList symbols)).length ≤ 50
  rw [(pySorted_perm strLe (quotesCappedList symbols)).length_eq]
  exact quotesCappedList_length symbols

/-- Counterexample to C6 as stated: the CSV `"AAPL,AAPL"` keeps both
occurrences, and the cache key contains `AAPL` twice, not once. -/
theorem C6_counterexample :
    quotes_sym_list "AAPL,AAPL" = ["AAPL", "AAPL"] ∧
    quotesCacheKey (quotes_sym_list "AAPL,AAPL") false =
      "quotes:rth:AAPL,AAPL" := by
  decide

/-! ## C8 -/

theorem mem_dedupKeepLast {b : Bar} : ∀ {l : List Bar},
    b ∈ dedupKeepLast l → b ∈ l := by
  intro l
  induction l with
  | nil => intro h; exact absurd h (by simp [dedupKeepLast])
  | cons x xs ih =>
    unfold dedupKeepLast
    split
    · intro h; exact List.mem_cons_of_mem x (ih h)
    · intro h
      rcases List.mem_cons.mp h with rfl | h2
      · exact List.mem_cons_self _ _
      · exact List.mem_cons_of_mem x (ih h2)

theorem mem_filter_ext_outliers {keep : List Bar → List Bar → Bar → Bool}
    {e r : List Bar} {b : Bar} (h : b ∈ _filter_ext_outliers keep e r) :
    b ∈ e := by
  unfold _filter_ext_outliers at h
  split at h
  · exact h
  · exact (List.mem_filter.mp h).1

theorem subset_dedupKeepLast_ite (c : Bool) (l : List Bar) {b : Bar}
    (h : b ∈ (if c then dedupKeepLast l else l)) : b ∈ l := by
  split at h
  · exact mem_dedupKeepLast h
  · exact h

theorem subset_filter_ite (c : Bool) (p : Bar → Bool) (l : List Bar)
    {b : Bar} (h : b ∈ (if c then l.filter p else l)) : b ∈ l := by
  split at h
  · exact (List.mem_filter.mp h).1
  · exact h

theorem mem_df_to_candles_time {t : Int} {l : List Bar}
    (h : t ∈ (_df_to_candles l).map Candle.time) : ∃ b ∈ l, b.time = t := by
  rw [List.mem_map] at h
  obtain ⟨c, hc, rfl⟩ := h
  unfold _df_to_candles at hc
  rw [List.mem_map] at hc
  obtain ⟨b, hb, rfl⟩ := hc
  exact ⟨b, hb, rfl⟩

theorem splitCandles_disjoint (env : BuildEnv) (base_df : List Bar)
    (t : Int) (hc : t ∈ (splitCandles env base_df).1.map Candle.time)
    (he : t ∈ (splitCandles env base_df).2.map Candle.time) : False := by
  obtain ⟨b, hb, hbt⟩ := mem_df_to_candles_time hc
  obtain ⟨b', hb', hbt'⟩ := mem_df_to_candles_time he
  have hbr : b ∈ (_split_sessions env.et base_df).1 :=
    subset_dedupKeepLast_ite _ _ hb
  have hbe : b' ∈ (_split_sessions env.et base_df).2 :=
    subset_filter_ite _ _ _
      (subset_dedupKeepLast_ite _ _ (mem_filter_ext_outliers hb'))
  have hmask1 : maskRTH env.et b.time = true := (List.mem_filter.mp hbr).2
  have hmask2 : (!maskRTH env.et b'.time) = true := (List.mem_filter.mp hbe).2
  rw [hbt] at hmask1
  rw [hbt', hmask1] at hmask2
  exact absurd hmask2 (by simp)

/-- **C8** (confirmed).  In every successfully built payload no timestamp
occurs in both `candles` and `ext_candles`: the session split partitions
rows by the RTH mask of their timestamp, ext rows whose timestamp is also
RTH are dropped, and all later steps only remove rows. -/
theorem C8_candles_ext_disjoint (env : BuildEnv) (qt symbol tf : String)
    (ext : Bool) (df : List Bar) (p : Payload)
    (h : _build_symbol_payload env qt symbol tf ext df = .ok p)
    (t : Int) (hc : t ∈ p.candles.map Candle.time) :
    t ∉ p.ext_candles.map Candle.time := by
  intro he
  unfold _build_symbol_payload at h
  split at h
  · exact absurd h (by simp)
  · rw [Except.ok.injEq] at h
    subst h
    split at hc
    · rename_i hcond
      rw [if_pos hcond] at he
      exact splitCandles_disjoint _ _ _ hc he
    · rename_i hcond
      rw [if_neg hcond] at he
      simp at he

/-- A clock placing time 1 inside RTH and time 2 outside it. -/
def envSplitEx : BuildEnv :=
  { et := fun t => if t = 1 then (10, 0) else (8, 0)
    intradayKeep := fun _ _ => true
    extKeep := fun _ _ _ => true
    resample4h := fun df => df
    indLine := fun _ _ => [] }

/-- The payload built from two bars, one RTH and one extended. -/
def payloadSplitEx : Payload :=
  match _build_symbol_payload envSplitEx "" "AAPL" "5m" true
      [barEx, barEx2] with
  | .ok p => p
  | .error _ => payloadEx

/-- Witness for C8: time 1 is a candle time and not an ext-candle time of
the concretely built payload. -/
theorem C8_witness :
    (1 : Int) ∈ payloadSplitEx.candles.map Candle.time ∧
    (1 : Int) ∉ payloadSplitEx.ext_candles.map Candle.time :=
  ⟨by decide,
   C8_candles_ext_disjoint envSplitEx "" "AAPL" "5m" true [barEx, barEx2]
     payloadSplitEx (by decide) 1 (by decide)⟩

/-! ## C9 -/

/-- **C9** (confirmed).  Each iteration of the push loop either leaves the
watermark unchanged or replaces it by `max(since_ts, latest_time)`, so the
watermark never decreases. -/
theorem C9_watermark_monotone (symbol tf : String) (ext : Bool)
    (st : StreamState) (res : TickResult) :
    st.since_ts ≤ (stream_step symbol tf ext st res).1.since_ts ∧
    ((stream_step symbol tf ext st res).1.since_ts = st.since_ts ∨
      ∃ p, res = TickResult.ok p ∧
        (stream_step symbol tf ext st res).1.since_ts =
          max st.since_ts
            (_build_delta_from_payload p st.since_ts).latest_time) := by
  cases res with
  | fail msg =>
    by_cases hm : msg ≠ st.last_error
    · simp only [stream_step, if_pos hm]
      exact ⟨le_refl _, Or.inl (by trivial)⟩
    · simp only [stream_step, if_neg hm]
      exact ⟨le_refl _, Or.inl (by trivial)⟩
  | ok p =>
    simp only [stream_step]
    by_cases hu : deltaHasUpdates (_build_delta_from_payload p st.since_ts)
      = true
    · rw [if_pos hu]
      by_cases hs : some (_delta_signature
          (_build_delta_from_payload p st.since_ts)) ≠ st.last_sig
      · rw [if_pos hs]
        by_cases hl :
            0 < (_build_delta_from_payload p st.since_ts).latest_time
        · rw [if_pos hl]
          exact ⟨le_max_left _ _, Or.inr ⟨p, rfl, rfl⟩⟩
        · rw [if_neg hl]
          exact ⟨le_refl _, Or.inl rfl⟩
      · rw [if_neg hs]
        exact ⟨le_refl _, Or.inl rfl⟩
    · rw [if_neg hu]
      exact ⟨le_refl _, Or.inl rfl⟩

/-! ## C10 -/

theorem lookup_setAssoc {α : Type} (l : List (String × α)) (k : String)
    (v : α) : List.lookup k (setAssoc l k v) = some v := by
  induction l with
  | nil => simp [setAssoc, List.lookup]
  | cons kv rest ih =>
    unfold setAssoc
    split
    · simp [List.lookup]
    · rename_i hne
      have hbeq : (k == kv.1) = false := by
        rw [beq_eq_false_iff_ne]
        intro heq
        exact hne heq.symm
      simpa [List.lookup, hbeq] using ih

/-- **C10** (confirmed).  With a non-empty symbol list, no cache entry for
the key and an empty live snapshot, `get_quotes` returns
`{quotes: {}, stale: false}` and stores the empty map under the key, so a
second call within the quote TTL serves the cached empty map as fresh. -/
theorem C10_empty_snapshot_cached (qcache : List (String × QuoteEntry))
    (now : Int) (symbols : String) (ext : Bool)
    (hne : (quotes_sym_list symbols).isEmpty = false)
    (hmiss : List.lookup (quotesCacheKey (quotes_sym_list symbols) ext)
      qcache = none) :
    (get_quotes qcache now [] symbols ext).1 = ⟨[], false⟩ ∧
    List.lookup (quotesCacheKey (quotes_sym_list symbols) ext)
      (get_quotes qcache now [] symbols ext).2 = some ⟨now, []⟩ ∧
    ∀ (now2 : Int) (snap2 : List (String × Quote)),
      now2 - now ≤ _QUOTE_TTL →
      (get_quotes (get_quotes qcache now [] symbols ext).2 now2 snap2
        symbols ext).1 = ⟨[], false⟩ := by
  have hstep : get_quotes qcache now [] symbols ext =
      (⟨[], false⟩, setAssoc qcache
        (quotesCacheKey (quotes_sym_list symbols) ext) ⟨now, []⟩) := by
    unfold get_quotes
    simp only [hne, Bool.false_eq_true, if_false, hmiss]
  refine ⟨by rw [hstep], by rw [hstep]; exact lookup_setAssoc _ _ _, ?_⟩
  intro now2 snap2 hts
  rw [hstep]
  unfold get_quotes
  simp only [hne, Bool.false_eq_true, if_false, lookup_setAssoc]
  rw [if_pos (by simpa using by omega : (!(now2 - (⟨now, []⟩ : QuoteEntry).ts
    > _QUOTE_TTL)) = true)]

/-- Witness for C10: cold cache, empty snapshot for `"AAPL"`; the empty
map is returned non-stale and a call 10 seconds later is served fresh. -/
theorem C10_witness :
    (get_quotes [] 100 [] "AAPL" false).1 = ⟨[], false⟩ ∧
    (get_quotes (get_quotes [] 100 [] "AAPL" false).2 110 [] "AAPL"
      false).1 = ⟨[], false⟩ := by
  have h := C10_empty_snapshot_cached [] 100 "AAPL" false (by decide)
    (by decide)
  exact ⟨h.1, h.2.2 110 [] (by decide)⟩

end FadingView
